import Mathlib

/-!
Shallow embedding of the weather-map application in src/App.js.

The component App (src/App.js, lines 17-130) holds five React state cells
(latitude, longitude, weatherData, visible, locationError), a mutable ref
locationSubscription, and three operations: fetchWeatherData, the manual
getWeather action, and startLocationTracking.  JavaScript numbers are
modelled as rationals (Rat); JavaScript values that may be undefined are
modelled as Option; the network response consumed by fetchWeatherData and
the permission status consumed by startLocationTracking are passed in as
explicit parameters; observable side effects (Alert.alert, the HTTP GET,
console.error) are returned as an explicit effect list.
-/

/-- Model of the JSON object data.main in a weather API response.  Any of
the three numeric fields may be absent (undefined) in the raw JSON. -/
structure MainJson where
  temp : Option Rat
  pressure : Option Int
  humidity : Option Int
deriving Repr, DecidableEq

/-- Model of one element of the JSON array data.weather. -/
structure WeatherItemJson where
  description : Option String
deriving Repr, DecidableEq

/-- Model of the parsed JSON body of a successful weather API response:
name, main and weather may each be absent. -/
structure WeatherJson where
  name : Option String
  main : Option MainJson
  weather : Option (List WeatherItemJson)
deriving Repr, DecidableEq

/-- Outcome of the awaited fetch inside fetchWeatherData (src/App.js lines
45-54): a non-ok response carrying its status and error body text, or an ok
response whose parsed JSON body is the given value (none models a null
body, which fails the if-data check on line 57). -/
inductive FetchResponse where
  | httpError (status : Nat) (body : String)
  | success (data : Option WeatherJson)
deriving Repr, DecidableEq

/-- The weather record built on src/App.js lines 58-66 and stored with
setWeatherData.  latitude, longitude and temp are the strings produced by
toFixed; pressure, humidity and description are copied from the JSON and
may therefore be undefined (none). -/
structure WeatherRecord where
  place : String
  latitude : String
  longitude : String
  temp : String
  pressure : Option Int
  humidity : Option Int
  description : Option String
deriving Repr, DecidableEq

/-- Observable side effects of the operations: a user-facing Alert.alert
with title and message, the HTTP GET to the weather endpoint built from
apiURL (src/App.js line 36) carrying the query parameters lat, lon and the
API key, and a console.error log line. -/
inductive Effect where
  | alert (title msg : String)
  | networkCall (lat lon : Rat) (apiKey : Option String)
  | logError (msg : String)
deriving Repr

/-- The React state of App (src/App.js lines 19-26): the five useState
cells, the locationSubscription ref (holding the id of the subscription it
points at, if any), plus the environment bookkeeping needed to model the
platform location service: the multiset of currently active platform
subscriptions and a counter supplying fresh subscription ids. -/
structure SysState where
  latitude : Rat
  longitude : Rat
  weatherData : Option WeatherRecord
  visible : Bool
  locationError : Option String
  subRef : Option Nat
  active : List Nat
  nextId : Nat

/-- The constant on src/App.js line 28. -/
def API_KEY : String := "Your API key"

/-- Model of the JavaScript expression v || dflt for an optional string v:
undefined and the empty string are falsy and select the default. -/
def jsStringOr (v : Option String) (dflt : String) : String :=
  match v with
  | none => dflt
  | some s => if s = "" then dflt else s

/-- Decimal digit character for a single digit 0-9. -/
def digitChar : Nat → Char
  | 0 => '0' | 1 => '1' | 2 => '2' | 3 => '3' | 4 => '4'
  | 5 => '5' | 6 => '6' | 7 => '7' | 8 => '8' | _ => '9'

/-- The d low decimal digits of m, most significant first, zero padded to
exactly d characters. -/
def padDigits : Nat → Nat → List Char
  | 0, _ => []
  | d + 1, m => padDigits d (m / 10) ++ [digitChar (m % 10)]

/-- The integer n selected by ECMAScript toFixed for a nonnegative value q
and d fraction digits: n minimises the distance of n / 10 ^ d to q, and of
two equally close integers the larger is taken, which is the floor of
q * 10 ^ d + 1/2. -/
def jsFixedInt (q : Rat) (d : Nat) : Int := ⌊q * (10 : Rat) ^ d + 1 / 2⌋

/-- Decimal rendering of the scaled nonnegative integer n with d fraction
digits, as ECMAScript toFixed prints it. -/
def renderFixed (d : Nat) (n : Nat) : String :=
  if d = 0 then Nat.repr n
  else Nat.repr (n / 10 ^ d) ++ "." ++ String.mk (padDigits d (n % 10 ^ d))

/-- Model of Number.prototype.toFixed(d) from ECMAScript: a negative value
is printed as the minus sign followed by the rendering of its absolute
value. -/
def toFixed (q : Rat) (d : Nat) : String :=
  if q < 0 then "-" ++ renderFixed d (jsFixedInt (-q) d).toNat
  else renderFixed d (jsFixedInt q d).toNat

/-- Number of characters after the last decimal point of s, or none when s
has no decimal point. -/
def decimalsAfter (s : String) : Option Nat :=
  if '.' ∈ s.data then
    some ((s.data.reverse.takeWhile (fun c => c != '.')).length)
  else none

/-- The guard condition on src/App.js line 39: the JavaScript test
(!API_KEY || API_KEY === 'YOUR_ACTUAL_API_KEY_HERE'), where an absent key
and the empty string are the falsy string values. -/
def keyGuardFails (apiKey : Option String) : Prop :=
  apiKey = none ∨ apiKey = some "" ∨ apiKey = some "YOUR_ACTUAL_API_KEY_HERE"

instance (apiKey : Option String) : Decidable (keyGuardFails apiKey) := by
  unfold keyGuardFails; infer_instance

/-- Embedding of fetchWeatherData (src/App.js lines 35-75).  The function
receives the key in scope (API_KEY in the program), the two coordinates,
the response the network would deliver, and the current state; it returns
the new state and the list of observable effects in program order.  If the
guard on line 39 fires, Alert.alert is raised and the function returns
before any network call.  Otherwise the GET happens; a non-ok response or a
null body throws, landing in the catch block which only logs (lines 71-74).
On an ok body, evaluating the object literal on lines 58-66 throws a
TypeError (caught and logged) exactly when data.main is undefined, when
data.main.temp is undefined, or when data.weather is undefined or empty;
otherwise the record replaces weatherData. -/
def fetchWeatherData (apiKey : Option String) (lat lon : Rat)
    (resp : FetchResponse) (s : SysState) : SysState × List Effect :=
  if keyGuardFails apiKey then
    (s, [Effect.alert "API Error" "Please add a valid OpenWeatherMap API key"])
  else
    let net := Effect.networkCall lat lon apiKey
    match resp with
    | FetchResponse.httpError status body =>
        (s, [net, Effect.logError
          ("Weather fetch error: HTTP error! status: " ++ Nat.repr status ++ ", " ++ body)])
    | FetchResponse.success none =>
        (s, [net, Effect.logError "Weather fetch error: Unable to retrieve weather data"])
    | FetchResponse.success (some data) =>
        match data.main with
        | none => (s, [net, Effect.logError "Weather fetch error: TypeError"])
        | some m =>
          match m.temp with
          | none => (s, [net, Effect.logError "Weather fetch error: TypeError"])
          | some t =>
            match data.weather with
            | none => (s, [net, Effect.logError "Weather fetch error: TypeError"])
            | some [] => (s, [net, Effect.logError "Weather fetch error: TypeError"])
            | some (w :: _) =>
                ({s with weatherData := some ⟨jsStringOr data.name "Unknown Location",
                    toFixed lat 4, toFixed lon 4, toFixed t 2,
                    m.pressure, m.humidity, w.description⟩},
                 [net])

/-- Embedding of startLocationTracking (src/App.js lines 78-114).  perm is
the status returned by requestForegroundPermissionsAsync; watchErr is none
when watchPositionAsync succeeds (allocating a fresh subscription id) and
some msg when it throws an error with that message.  A denied permission
sets locationError to the fixed message and returns (lines 82-85).
Otherwise any subscription the ref points at is removed first (lines
88-90), then the new watch is started and stored in the ref (line 93); if
starting it throws, the catch block (lines 110-113) sets locationError and
raises an alert. -/
def startLocationTracking (perm : String) (watchErr : Option String)
    (s : SysState) : SysState × List Effect :=
  if perm ≠ "granted" then
    ({s with locationError := some "Permission to access location was denied"}, [])
  else
    let s1 := match s.subRef with
      | some id => {s with active := s.active.erase id}
      | none => s
    match watchErr with
    | some msg =>
        ({s1 with locationError := some ("Error tracking location: " ++ msg)},
         [Effect.alert "Location Error" msg])
    | none =>
        ({s1 with subRef := some s1.nextId,
                  active := s1.nextId :: s1.active,
                  nextId := s1.nextId + 1}, [])

/-- User-interface and platform events that drive the state: the Show
Weather button press (getWeather, src/App.js lines 127-130, carrying the
response the triggered fetch will receive), dismissal of the dialog via its
backdrop (onDismiss, line 163), the Close button (line 200), and a position
update delivered to the watch callback (lines 99-108). -/
inductive Event where
  | pressShowWeather (resp : FetchResponse)
  | dismissDialog
  | pressClose
  | locationUpdate (lat lon : Rat) (resp : FetchResponse)

/-- One step of the user interface.  getWeather calls fetchWeatherData with
the current coordinates and then showDialog; both dismissal paths call
hideDialog; the watch callback stores the new coordinates and then fetches
weather for them. -/
def step (e : Event) (s : SysState) : SysState × List Effect :=
  match e with
  | Event.pressShowWeather resp =>
      let r := fetchWeatherData (some API_KEY) s.latitude s.longitude resp s
      ({r.1 with visible := true}, r.2)
  | Event.dismissDialog => ({s with visible := false}, [])
  | Event.pressClose => ({s with visible := false}, [])
  | Event.locationUpdate lat lon resp =>
      fetchWeatherData (some API_KEY) lat lon resp
        {s with latitude := lat, longitude := lon}

/-- The initial state of App (src/App.js lines 19-26): the hardcoded
coordinates, no weather record, dialog hidden, no location error, and no
subscription. -/
def initState : SysState :=
  { latitude := 57.538900
    longitude := 25.425727
    weatherData := none
    visible := false
    locationError := none
    subRef := none
    active := []
    nextId := 0 }

/-- Subscription invariant: every active subscription id is below the fresh
counter, and the active subscriptions are at most the one the ref points
at. -/
def subInv (s : SysState) : Prop :=
  (∀ i ∈ s.active, i < s.nextId) ∧
  (match s.subRef with
   | none => s.active = []
   | some id => s.active = [] ∨ s.active = [id])

/-! Helper lemmas. -/

lemma digitChar_ne_dot (n : Nat) : digitChar n ≠ '.' := by
  unfold digitChar
  split <;> decide

lemma padDigits_length (d m : Nat) : (padDigits d m).length = d := by
  induction d generalizing m with
  | zero => rfl
  | succ d ih => simp [padDigits, ih]

lemma padDigits_ne_dot (d m : Nat) : ∀ c ∈ padDigits d m, c ≠ '.' := by
  induction d generalizing m with
  | zero => intro c hc; cases hc
  | succ d ih =>
      intro c hc
      rcases List.mem_append.mp hc with h | h
      · exact ih _ c h
      · rcases List.mem_singleton.mp h with rfl
        exact digitChar_ne_dot _

lemma takeWhile_append_stop {α : Type} (p : α → Bool) (l m : List α) (x : α)
    (hl : ∀ c ∈ l, p c = true) (hx : p x = false) :
    (l ++ x :: m).takeWhile p = l := by
  induction l with
  | nil => simp [List.takeWhile, hx]
  | cons a l ih =>
      have ha : p a = true := hl a (List.mem_cons_self a l)
      simp only [List.cons_append, List.takeWhile_cons, ha, if_true]
      rw [ih fun c hc => hl c (List.mem_cons_of_mem a hc)]

lemma decimalsAfter_data (s : String) (a l : List Char)
    (hs : s.data = a ++ '.' :: l) (h : ∀ c ∈ l, c ≠ '.') :
    decimalsAfter s = some l.length := by
  unfold decimalsAfter
  rw [hs, if_pos (by simp)]
  have hrev : (a ++ '.' :: l).reverse = l.reverse ++ '.' :: a.reverse := by
    simp [List.reverse_append]
  rw [hrev, takeWhile_append_stop _ _ _ _ ?_ (by decide)]
  · simp
  · intro c hc
    have : c ∈ l := List.mem_reverse.mp hc
    simpa using h c this

lemma renderFixed_data (d n : Nat) (hd : 1 ≤ d) :
    (renderFixed d n).data =
      (Nat.repr (n / 10 ^ d)).data ++ '.' :: padDigits d (n % 10 ^ d) := by
  unfold renderFixed
  rw [if_neg (by omega)]
  simp [String.data_append]

lemma decimalsAfter_toFixed (q : Rat) (d : Nat) (hd : 1 ≤ d) :
    decimalsAfter (toFixed q d) = some d := by
  unfold toFixed
  split
  · have : ("-" ++ renderFixed d (jsFixedInt (-q) d).toNat).data =
        ('-' :: (Nat.repr ((jsFixedInt (-q) d).toNat / 10 ^ d)).data) ++
          '.' :: padDigits d ((jsFixedInt (-q) d).toNat % 10 ^ d) := by
      simp [String.data_append, renderFixed_data _ _ hd]
    rw [decimalsAfter_data _ _ _ this (padDigits_ne_dot _ _), padDigits_length]
  · rw [decimalsAfter_data _ _ _ (renderFixed_data d _ hd) (padDigits_ne_dot _ _),
      padDigits_length]

lemma toFixed_val_lat : toFixed 57.5389 4 = "57.5389" := by
  have hneg : ¬((57.5389 : Rat) < 0) := by norm_num
  have hval : jsFixedInt 57.5389 4 = 575389 := by unfold jsFixedInt; norm_num
  rw [toFixed, if_neg hneg, hval]
  decide

lemma toFixed_val_lon : toFixed 25.425727 4 = "25.4257" := by
  have hneg : ¬((25.425727 : Rat) < 0) := by norm_num
  have hval : jsFixedInt 25.425727 4 = 254257 := by unfold jsFixedInt; norm_num
  rw [toFixed, if_neg hneg, hval]
  decide

lemma toFixed_val_temp : toFixed 18.456 2 = "18.46" := by
  have hneg : ¬((18.456 : Rat) < 0) := by norm_num
  have hval : jsFixedInt 18.456 2 = 1846 := by unfold jsFixedInt; norm_num
  rw [toFixed, if_neg hneg, hval]
  decide

lemma keyGuard_not_embedded : ¬ keyGuardFails (some API_KEY) := by decide

lemma fetch_fst_frame (key : Option String) (lat lon : Rat)
    (resp : FetchResponse) (s : SysState) :
    (fetchWeatherData key lat lon resp s).1.latitude = s.latitude ∧
    (fetchWeatherData key lat lon resp s).1.longitude = s.longitude ∧
    (fetchWeatherData key lat lon resp s).1.visible = s.visible ∧
    (fetchWeatherData key lat lon resp s).1.locationError = s.locationError ∧
    (fetchWeatherData key lat lon resp s).1.subRef = s.subRef ∧
    (fetchWeatherData key lat lon resp s).1.active = s.active ∧
    (fetchWeatherData key lat lon resp s).1.nextId = s.nextId := by
  by_cases hk : keyGuardFails key
  · simp [fetchWeatherData, hk]
  · cases resp with
    | httpError st b => simp [fetchWeatherData, hk]
    | success d =>
        cases d with
        | none => simp [fetchWeatherData, hk]
        | some data =>
            rcases data with ⟨nm, mn, wt⟩
            rcases mn with _ | m
            · simp [fetchWeatherData, hk]
            · rcases m with ⟨mt, mp, mh⟩
              rcases mt with _ | t
              · simp [fetchWeatherData, hk]
              · rcases wt with _ | ws
                · simp [fetchWeatherData, hk]
                · rcases ws with _ | ⟨w, ws⟩
                  · simp [fetchWeatherData, hk]
                  · simp [fetchWeatherData, hk]

lemma fetch_network_head (lat lon : Rat) (resp : FetchResponse) (s : SysState) :
    ∃ rest, (fetchWeatherData (some API_KEY) lat lon resp s).2 =
      Effect.networkCall lat lon (some API_KEY) :: rest := by
  have hk : ¬ keyGuardFails (some API_KEY) := keyGuard_not_embedded
  cases resp with
  | httpError st b =>
      exact ⟨[Effect.logError ("Weather fetch error: HTTP error! status: " ++
        Nat.repr st ++ ", " ++ b)], by simp [fetchWeatherData, hk]⟩
  | success d =>
      cases d with
      | none =>
          exact ⟨[Effect.logError "Weather fetch error: Unable to retrieve weather data"],
            by simp [fetchWeatherData, hk]⟩
      | some data =>
          rcases data with ⟨nm, mn, wt⟩
          rcases mn with _ | m
          · exact ⟨[Effect.logError "Weather fetch error: TypeError"],
              by simp [fetchWeatherData, hk]⟩
          · rcases m with ⟨mt, mp, mh⟩
            rcases mt with _ | t
            · exact ⟨[Effect.logError "Weather fetch error: TypeError"],
                by simp [fetchWeatherData, hk]⟩
            · rcases wt with _ | ws
              · exact ⟨[Effect.logError "Weather fetch error: TypeError"],
                  by simp [fetchWeatherData, hk]⟩
              · rcases ws with _ | ⟨w, ws⟩
                · exact ⟨[Effect.logError "Weather fetch error: TypeError"],
                    by simp [fetchWeatherData, hk]⟩
                · exact ⟨[], by simp [fetchWeatherData, hk]⟩

lemma subInv_length (s : SysState) (h : subInv s) : s.active.length ≤ 1 := by
  rcases h with ⟨-, h2⟩
  rcases hs : s.subRef with _ | id <;> rw [hs] at h2
  · simp [h2]
  · rcases h2 with h2 | h2 <;> simp [h2]

lemma subInv_start (p : String) (w : Option String) (s : SysState) (h : subInv s) :
    subInv (startLocationTracking p w s).1 := by
  unfold startLocationTracking
  split
  · rcases h with ⟨h1, h2⟩
    exact ⟨h1, h2⟩
  · rcases hs : s.subRef with _ | id
    · have hact : s.active = [] := by
        rcases h with ⟨-, h2⟩; rw [hs] at h2; exact h2
      cases w with
      | some msg => simp [subInv, hs, hact]
      | none => simp [subInv, hs, hact]
    · have hact : s.active.erase id = [] := by
        rcases h with ⟨-, h2⟩; rw [hs] at h2
        rcases h2 with h2 | h2 <;> simp [h2]
      cases w with
      | some msg => simp [subInv, hs, hact]
      | none => simp [subInv, hs, hact]

/-! Claim theorems. -/

/-- C1: the claim says a fetch with an API key that is absent or an obvious
placeholder — in particular the key embedded in the source — is aborted
before any network call with exactly one alert.  The guard on src/App.js
line 39 does fire for an absent key, the empty string and the literal
YOUR_ACTUAL_API_KEY_HERE, but the key actually embedded in the source is
the placeholder Your API key, which the guard misses: the fetch proceeds to
the network call, raises no alert, and on the resulting 401 response merely
logs. -/
theorem fetch_embedded_placeholder_key_not_aborted :
    API_KEY = "Your API key" ∧
    (∀ lat lon resp s, fetchWeatherData none lat lon resp s =
      (s, [Effect.alert "API Error" "Please add a valid OpenWeatherMap API key"])) ∧
    (∀ lat lon resp s, fetchWeatherData (some "") lat lon resp s =
      (s, [Effect.alert "API Error" "Please add a valid OpenWeatherMap API key"])) ∧
    (∀ lat lon resp s, fetchWeatherData (some "YOUR_ACTUAL_API_KEY_HERE") lat lon resp s =
      (s, [Effect.alert "API Error" "Please add a valid OpenWeatherMap API key"])) ∧
    fetchWeatherData (some API_KEY) 57.5389 25.425727
        (FetchResponse.httpError 401 "Invalid API key") initState =
      (initState,
       [Effect.networkCall 57.5389 25.425727 (some API_KEY),
        Effect.logError "Weather fetch error: HTTP error! status: 401, Invalid API key"]) := by
  refine ⟨rfl, ?_, ?_, ?_, ?_⟩
  · intro lat lon resp s
    unfold fetchWeatherData
    rw [if_pos (show keyGuardFails none from Or.inl rfl)]
  · intro lat lon resp s
    unfold fetchWeatherData
    rw [if_pos (show keyGuardFails (some "") from Or.inr (Or.inl rfl))]
  · intro lat lon resp s
    unfold fetchWeatherData
    rw [if_pos (show keyGuardFails (some "YOUR_ACTUAL_API_KEY_HERE") from Or.inr (Or.inr rfl))]
  · unfold fetchWeatherData
    rw [if_neg keyGuard_not_embedded]
    rfl

/-- C2: a fetch at latitude 57.5389 and longitude 25.425727 whose response
is ok with body name Valka, main temp 18.456 pressure 1012 humidity 60 and
weather description clear sky produces exactly the record with place Valka,
latitude 57.5389, longitude 25.4257, temp 18.46, pressure 1012, humidity 60
and description clear sky, and stores it as the current record. -/
theorem fetch_valka_success (s : SysState) :
    fetchWeatherData (some API_KEY) 57.5389 25.425727
        (FetchResponse.success (some ⟨some "Valka",
          some ⟨some 18.456, some 1012, some 60⟩, some [⟨some "clear sky"⟩]⟩)) s =
      ({s with weatherData := some ⟨"Valka", "57.5389", "25.4257", "18.46",
          some 1012, some 60, some "clear sky"⟩},
       [Effect.networkCall 57.5389 25.425727 (some API_KEY)]) := by
  unfold fetchWeatherData
  rw [if_neg keyGuard_not_embedded]
  dsimp only [jsStringOr]
  rw [toFixed_val_lat, toFixed_val_lon, toFixed_val_temp]
  rfl

/-- C3: every fetch receiving a non-ok HTTP status captures the error body
into the logged message, raises no user-visible alert, and leaves the state
— in particular any previously stored weather record — unchanged. -/
theorem fetch_httpError_logged_only (lat lon : Rat) (status : Nat)
    (body : String) (s : SysState) :
    fetchWeatherData (some API_KEY) lat lon (FetchResponse.httpError status body) s =
      (s, [Effect.networkCall lat lon (some API_KEY),
           Effect.logError ("Weather fetch error: HTTP error! status: " ++
             Nat.repr status ++ ", " ++ body)]) := by
  unfold fetchWeatherData
  rw [if_neg keyGuard_not_embedded]

/-- C4: every fetch whose response is ok but whose body is missing the main
temperature (no main block or no temp field) or the weather description
array (absent or empty) only logs and produces no record: the state is
returned unchanged. -/
theorem fetch_malformed_no_record (lat lon : Rat) (data : WeatherJson) (s : SysState)
    (h : data.main = none ∨ (∃ m, data.main = some m ∧ m.temp = none) ∨
      data.weather = none ∨ data.weather = some []) :
    fetchWeatherData (some API_KEY) lat lon (FetchResponse.success (some data)) s =
      (s, [Effect.networkCall lat lon (some API_KEY),
           Effect.logError "Weather fetch error: TypeError"]) := by
  have hk := keyGuard_not_embedded
  rcases data with ⟨nm, mn, wt⟩
  rcases mn with _ | m
  · simp [fetchWeatherData, hk]
  · rcases m with ⟨mt, mp, mh⟩
    rcases mt with _ | t
    · simp [fetchWeatherData, hk]
    · rcases wt with _ | ws
      · simp [fetchWeatherData, hk]
      · have hws : ws = [] := by
          simpa using h
        subst hws
        simp [fetchWeatherData, hk]

theorem fetch_malformed_no_record_witness :
    ((⟨some "Valka", none, some [⟨some "clear sky"⟩]⟩ : WeatherJson).main = none ∨
     (∃ m, (⟨some "Valka", none, some [⟨some "clear sky"⟩]⟩ : WeatherJson).main = some m ∧
        m.temp = none) ∨
     (⟨some "Valka", none, some [⟨some "clear sky"⟩]⟩ : WeatherJson).weather = none ∨
     (⟨some "Valka", none, some [⟨some "clear sky"⟩]⟩ : WeatherJson).weather = some []) ∧
    fetchWeatherData (some API_KEY) 1 2
        (FetchResponse.success (some ⟨some "Valka", none, some [⟨some "clear sky"⟩]⟩))
        initState =
      (initState, [Effect.networkCall 1 2 (some API_KEY),
        Effect.logError "Weather fetch error: TypeError"]) :=
  ⟨Or.inl rfl, fetch_malformed_no_record 1 2 _ initState (Or.inl rfl)⟩

/-- C5: whenever a fetch produces a weather record (and only an ok response
with a temperature and a nonempty weather array does), the latitude and
longitude fields of that record are the input coordinates formatted by
toFixed to exactly 4 decimal places, and the temp field is the response
temperature formatted to exactly 2 decimal places; in every other case the
stored record is left unchanged. -/
theorem fetch_record_formats (key : Option String) (lat lon : Rat)
    (resp : FetchResponse) (s : SysState) :
    (fetchWeatherData key lat lon resp s).1.weatherData = s.weatherData ∨
    ∃ data m t w ws r,
      resp = FetchResponse.success (some data) ∧ data.main = some m ∧
      m.temp = some t ∧ data.weather = some (w :: ws) ∧
      (fetchWeatherData key lat lon resp s).1.weatherData = some r ∧
      r.latitude = toFixed lat 4 ∧ r.longitude = toFixed lon 4 ∧
      r.temp = toFixed t 2 ∧
      decimalsAfter r.latitude = some 4 ∧ decimalsAfter r.longitude = some 4 ∧
      decimalsAfter r.temp = some 2 := by
  by_cases hk : keyGuardFails key
  · left; simp [fetchWeatherData, hk]
  · cases resp with
    | httpError st b => left; simp [fetchWeatherData, hk]
    | success d =>
        cases d with
        | none => left; simp [fetchWeatherData, hk]
        | some data =>
            rcases data with ⟨nm, mn, wt⟩
            rcases mn with _ | m
            · left; simp [fetchWeatherData, hk]
            · rcases m with ⟨mt, mp, mh⟩
              rcases mt with _ | t
              · left; simp [fetchWeatherData, hk]
              · rcases wt with _ | ws
                · left; simp [fetchWeatherData, hk]
                · rcases ws with _ | ⟨w, ws⟩
                  · left; simp [fetchWeatherData, hk]
                  · right
                    refine ⟨⟨nm, some ⟨some t, mp, mh⟩, some (w :: ws)⟩,
                      ⟨some t, mp, mh⟩, t, w, ws,
                      ⟨jsStringOr nm "Unknown Location", toFixed lat 4, toFixed lon 4,
                        toFixed t 2, mp, mh, w.description⟩,
                      rfl, rfl, rfl, rfl, ?_, rfl, rfl, rfl, ?_, ?_, ?_⟩
                    · simp [fetchWeatherData, hk]
                    · exact decimalsAfter_toFixed lat 4 (by omega)
                    · exact decimalsAfter_toFixed lon 4 (by omega)
                    · exact decimalsAfter_toFixed t 2 (by omega)

/-- C6: when the permission request resolves to anything other than
granted, startLocationTracking sets locationError to the fixed message,
leaves everything else unchanged — in particular no subscription is
created, the ref and the active set are untouched — and performs no further
action: no effect at all, hence no alert, no retry and no fetch. -/
theorem tracking_denied_terminal (perm : String) (watchErr : Option String)
    (s : SysState) (h : perm ≠ "granted") :
    startLocationTracking perm watchErr s =
      ({s with locationError := some "Permission to access location was denied"}, []) := by
  unfold startLocationTracking
  rw [if_pos h]

theorem tracking_denied_terminal_witness :
    ("denied" : String) ≠ "granted" ∧
    startLocationTracking "denied" none initState =
      ({initState with locationError := some "Permission to access location was denied"}, []) :=
  ⟨by decide, tracking_denied_terminal "denied" none initState (by decide)⟩

/-- C7: at most one location subscription is active at any time.  From any
state satisfying the subscription invariant (the active subscriptions are
at most the one the ref points at, with ids below the fresh counter — true
of the initial state), any invocation of startLocationTracking preserves
the invariant and leaves at most one active subscription, and so does a
second invocation: starting tracking twice never yields two simultaneous
active subscriptions, because the second start first releases the first
subscription. -/
theorem tracking_single_active_subscription (s : SysState) (p1 p2 : String)
    (w1 w2 : Option String) (h : subInv s) :
    subInv (startLocationTracking p1 w1 s).1 ∧
    (startLocationTracking p1 w1 s).1.active.length ≤ 1 ∧
    subInv (startLocationTracking p2 w2 (startLocationTracking p1 w1 s).1).1 ∧
    (startLocationTracking p2 w2 (startLocationTracking p1 w1 s).1).1.active.length ≤ 1 := by
  have h1 := subInv_start p1 w1 s h
  have h2 := subInv_start p2 w2 _ h1
  exact ⟨h1, subInv_length _ h1, h2, subInv_length _ h2⟩

theorem tracking_single_active_subscription_witness :
    subInv initState ∧
    (subInv (startLocationTracking "granted" none initState).1 ∧
     (startLocationTracking "granted" none initState).1.active.length ≤ 1 ∧
     subInv (startLocationTracking "granted" none
       (startLocationTracking "granted" none initState).1).1 ∧
     (startLocationTracking "granted" none
       (startLocationTracking "granted" none initState).1).1.active.length ≤ 1) := by
  have hinv : subInv initState := by simp [subInv, initState]
  exact ⟨hinv,
    tracking_single_active_subscription initState "granted" "granted" none none hinv⟩

/-- C8: the dialog visibility is a two-state machine.  It starts closed;
the Show Weather press — which also triggers a manual fetch with the
current coordinates — is the only event that opens it; the two dismissal
events are the only ones that close it; and a location update (hence also
any fetch outcome it carries) never changes it. -/
theorem dialog_two_state_machine :
    initState.visible = false ∧
    (∀ resp s, (step (Event.pressShowWeather resp) s).1.visible = true) ∧
    (∀ s, (step Event.dismissDialog s).1.visible = false) ∧
    (∀ s, (step Event.pressClose s).1.visible = false) ∧
    (∀ lat lon resp s, (step (Event.locationUpdate lat lon resp) s).1.visible = s.visible) ∧
    (∀ resp s, step (Event.pressShowWeather resp) s =
      ({(fetchWeatherData (some API_KEY) s.latitude s.longitude resp s).1 with
          visible := true},
       (fetchWeatherData (some API_KEY) s.latitude s.longitude resp s).2)) := by
  refine ⟨rfl, fun resp s => rfl, fun s => rfl, fun s => rfl,
    fun lat lon resp s => ?_, fun resp s => rfl⟩
  exact (fetch_fst_frame (some API_KEY) lat lon resp
    {s with latitude := lat, longitude := lon}).2.2.1

/-- C9: a fetch, on any outcome — guard abort, HTTP error, malformed body
or success — can modify only the weatherData cell: the coordinates, the
dialog visibility flag, the location error, and the subscription state are
all unchanged. -/
theorem fetch_modifies_only_record (key : Option String) (lat lon : Rat)
    (resp : FetchResponse) (s : SysState) :
    (fetchWeatherData key lat lon resp s).1.latitude = s.latitude ∧
    (fetchWeatherData key lat lon resp s).1.longitude = s.longitude ∧
    (fetchWeatherData key lat lon resp s).1.visible = s.visible ∧
    (fetchWeatherData key lat lon resp s).1.locationError = s.locationError ∧
    (fetchWeatherData key lat lon resp s).1.subRef = s.subRef ∧
    (fetchWeatherData key lat lon resp s).1.active = s.active ∧
    (fetchWeatherData key lat lon resp s).1.nextId = s.nextId :=
  fetch_fst_frame key lat lon resp s

/-- C10: before any position update the coordinates hold the hardcoded
initial values, so a Show Weather press in the initial state issues the
network request for exactly that hardcoded point. -/
theorem initial_coordinates_weather_fetch :
    initState.latitude = 57.538900 ∧ initState.longitude = 25.425727 ∧
    ∀ resp, ∃ rest, (step (Event.pressShowWeather resp) initState).2 =
      Effect.networkCall 57.538900 25.425727 (some API_KEY) :: rest := by
  refine ⟨rfl, rfl, fun resp => ?_⟩
  exact fetch_network_head 57.538900 25.425727 resp initState
